import Mathlib

/-!
Verification of the create-onchain-agent configuration-resolution and
project-assembly engine (src/typescript/create-onchain-agent/src/common).

The TypeScript source is shallowly embedded: union string-literal types
become `String` together with the literal lists from the source; optional
parameters become `Option String`, with JavaScript truthiness (`undefined`
and the empty string are falsy) modelled explicitly; record lookup tables
become association lists with JavaScript object-assignment semantics; the
filesystem side effects of the two assembly drivers are modelled as an
emitted trace of operations, with a selection error carrying an empty
trace because every check in the source precedes every filesystem call.
-/

/-- JavaScript truthiness of an optional string parameter: `undefined` and
the empty string are falsy, every other string is truthy. -/
def truthy : Option String → Bool
  | none => false
  | some s => s != ""

/-- The EVM network identifiers, in source order (constants.ts lines 7-18). -/
def EVM_NETWORKS : List String :=
  ["base-mainnet", "base-sepolia", "ethereum-mainnet", "ethereum-sepolia",
   "arbitrum-mainnet", "arbitrum-sepolia", "optimism-mainnet", "optimism-sepolia",
   "polygon-mainnet", "polygon-mumbai"]

/-- The SVM network identifiers (constants.ts line 22). -/
def SVM_NETWORKS : List String := ["solana-mainnet", "solana-devnet", "solana-testnet"]

/-- All networks, EVM first then SVM (constants.ts line 58). -/
def Networks : List String := EVM_NETWORKS ++ SVM_NETWORKS

/-- Wallet providers offered on CDP-supported EVM networks (constants.ts lines 28-33). -/
def CDP_SUPPORTED_EVM_WALLET_PROVIDERS : List String :=
  ["CDPSmartWallet", "CDPEvmWallet", "Viem", "Privy"]

/-- Wallet providers offered on SVM networks (constants.ts line 34). -/
def SVM_WALLET_PROVIDERS : List String := ["CDPSolanaWallet", "SolanaKeypair", "Privy"]

/-- Wallet providers offered on EVM networks without CDP support (constants.ts line 35). -/
def NON_CDP_SUPPORTED_EVM_WALLET_PROVIDERS : List String := ["Viem", "Privy"]

/-- The per-network wallet-provider table, entries in source order
(constants.ts lines 42-56). -/
def NetworkToWalletProviders : List (String × List String) :=
  [("arbitrum-mainnet", CDP_SUPPORTED_EVM_WALLET_PROVIDERS),
   ("arbitrum-sepolia", NON_CDP_SUPPORTED_EVM_WALLET_PROVIDERS),
   ("base-mainnet", CDP_SUPPORTED_EVM_WALLET_PROVIDERS),
   ("base-sepolia", CDP_SUPPORTED_EVM_WALLET_PROVIDERS),
   ("ethereum-mainnet", CDP_SUPPORTED_EVM_WALLET_PROVIDERS),
   ("ethereum-sepolia", NON_CDP_SUPPORTED_EVM_WALLET_PROVIDERS),
   ("optimism-mainnet", NON_CDP_SUPPORTED_EVM_WALLET_PROVIDERS),
   ("optimism-sepolia", NON_CDP_SUPPORTED_EVM_WALLET_PROVIDERS),
   ("polygon-mainnet", CDP_SUPPORTED_EVM_WALLET_PROVIDERS),
   ("polygon-mumbai", NON_CDP_SUPPORTED_EVM_WALLET_PROVIDERS),
   ("solana-mainnet", SVM_WALLET_PROVIDERS),
   ("solana-devnet", SVM_WALLET_PROVIDERS),
   ("solana-testnet", SVM_WALLET_PROVIDERS)]

/-- The network-family literal union returned by `getNetworkType`. -/
inductive Family where
  | EVM
  | SVM
  | CUSTOM_EVM
deriving DecidableEq

/-- `getNetworkType` (utils.ts lines 354-372): when the network argument is
truthy it is classified by membership in the EVM and SVM sets; when that
yields nothing, a truthy chainId gives `CUSTOM_EVM`; otherwise `null`. -/
def getNetworkType (network chainId : Option String) : Option Family :=
  let fromNetwork : Option Family :=
    if truthy network then
      let n := network.getD ""
      if n ∈ EVM_NETWORKS then some Family.EVM
      else if n ∈ SVM_NETWORKS then some Family.SVM
      else none
    else none
  match fromNetwork with
  | some f => some f
  | none => if truthy chainId then some Family.CUSTOM_EVM else none

/-- `getWalletProviders` (utils.ts lines 496-501): a truthy network indexes
the per-network table, otherwise the non-CDP EVM default list is returned. -/
def getWalletProviders (network : Option String) : List String :=
  if truthy network then (NetworkToWalletProviders.lookup (network.getD "")).getD []
  else NON_CDP_SUPPORTED_EVM_WALLET_PROVIDERS

/-- The wallet-provider select choices built by the CLI prompt: each provider
becomes a (title, value) pair and the first provider of the list is the one
whose title is marked as the default (the prompt source appends
" (default)" exactly when the provider equals element zero of the list). -/
def walletProviderChoices (network : Option String) : List (String × String) :=
  (getWalletProviders network).map (fun provider =>
    (if provider = (getWalletProviders network).headD "" then provider ++ " (default)"
     else provider, provider))

/-- The env metadata of a route configuration (constants.ts). -/
structure EnvConfig where
  topComments : List String
  required : List String
  optional : List String
deriving DecidableEq

/-- A route configuration of the next-template registry (constants.ts lines 68-173). -/
structure AgentkitRouteConfiguration where
  env : EnvConfig
  prepareAgentkitRoute : String
deriving DecidableEq

/-- EVM / CDPEvmWallet entry (constants.ts lines 73-80). -/
def evmCdpEvmWalletRoute : AgentkitRouteConfiguration :=
  { env := { topComments := ["Get keys from CDP Portal: https://portal.cdp.coinbase.com/"],
             required := ["CDP_API_KEY_ID", "CDP_API_KEY_SECRET", "CDP_WALLET_SECRET"],
             optional := ["RPC_URL"] },
    prepareAgentkitRoute := "evm/cdp/prepare-agentkit.ts" }

/-- EVM / Viem entry (constants.ts lines 81-91). -/
def evmViemRoute : AgentkitRouteConfiguration :=
  { env := { topComments := ["Export private key from your Ethereum wallet and save",
                             "Get keys from CDP Portal: https://portal.cdp.coinbase.com/"],
             required := ["PRIVATE_KEY"],
             optional := ["CDP_API_KEY_ID", "CDP_API_KEY_SECRET", "RPC_URL"] },
    prepareAgentkitRoute := "evm/viem/prepare-agentkit.ts" }

/-- EVM / Privy entry (constants.ts lines 92-109). -/
def evmPrivyRoute : AgentkitRouteConfiguration :=
  { env := { topComments := ["Get keys from Privy Dashboard: https://dashboard.privy.io/",
                             "Get keys from CDP Portal: https://portal.cdp.coinbase.com/"],
             required := ["PRIVY_APP_ID", "PRIVY_APP_SECRET"],
             optional := ["CHAIN_ID", "PRIVY_WALLET_ID",
                          "PRIVY_WALLET_AUTHORIZATION_PRIVATE_KEY",
                          "PRIVY_WALLET_AUTHORIZATION_KEY_ID",
                          "CDP_API_KEY_ID", "CDP_API_KEY_SECRET"] },
    prepareAgentkitRoute := "evm/privy/prepare-agentkit.ts" }

/-- EVM / CDPSmartWallet entry (constants.ts lines 110-120). -/
def evmCdpSmartWalletRoute : AgentkitRouteConfiguration :=
  { env := { topComments := ["Get keys from CDP Portal: https://portal.cdp.coinbase.com/",
                             "Optionally provide a private key, otherwise one will be generated"],
             required := ["CDP_API_KEY_ID", "CDP_API_KEY_SECRET", "CDP_WALLET_SECRET"],
             optional := ["PAYMASTER_URL", "RPC_URL"] },
    prepareAgentkitRoute := "evm/smart/prepare-agentkit.ts" }

/-- CUSTOM_EVM / Viem entry (constants.ts lines 122-134). -/
def customEvmViemRoute : AgentkitRouteConfiguration :=
  { env := { topComments := ["Export private key from your Ethereum wallet and save",
                             "Get keys from CDP Portal: https://portal.cdp.coinbase.com/"],
             required := ["PRIVATE_KEY"],
             optional := ["CDP_API_KEY_ID", "CDP_API_KEY_SECRET"] },
    prepareAgentkitRoute := "custom-evm/viem/prepare-agentkit.ts" }

/-- SVM / CDPSolanaWallet entry (constants.ts lines 136-143). -/
def svmCdpSolanaWalletRoute : AgentkitRouteConfiguration :=
  { env := { topComments := ["Get keys from CDP Portal: https://portal.cdp.coinbase.com/"],
             required := ["CDP_API_KEY_ID", "CDP_API_KEY_SECRET", "CDP_WALLET_SECRET"],
             optional := [] },
    prepareAgentkitRoute := "svm/cdp/prepare-agentkit.ts" }

/-- SVM / SolanaKeypair entry (constants.ts lines 144-154). -/
def svmSolanaKeypairRoute : AgentkitRouteConfiguration :=
  { env := { topComments := ["Export private key from your Solana wallet and save",
                             "Get keys from CDP Portal: https://portal.cdp.coinbase.com/"],
             required := ["SOLANA_PRIVATE_KEY"],
             optional := ["SOLANA_RPC_URL", "CDP_API_KEY_ID", "CDP_API_KEY_SECRET"] },
    prepareAgentkitRoute := "svm/solanaKeypair/prepare-agentkit.ts" }

/-- SVM / Privy entry (constants.ts lines 155-171). -/
def svmPrivyRoute : AgentkitRouteConfiguration :=
  { env := { topComments := ["Get keys from Privy Dashboard: https://dashboard.privy.io/",
                             "Get keys from CDP Portal: https://portal.cdp.coinbase.com/"],
             required := ["PRIVY_APP_ID", "PRIVY_APP_SECRET"],
             optional := ["PRIVY_WALLET_ID",
                          "PRIVY_WALLET_AUTHORIZATION_PRIVATE_KEY",
                          "PRIVY_WALLET_AUTHORIZATION_KEY_ID",
                          "CDP_API_KEY_ID", "CDP_API_KEY_SECRET"] },
    prepareAgentkitRoute := "svm/privy/prepare-agentkit.ts" }

/-- The next-template route registry keyed by family then provider
(constants.ts lines 68-173), as an association list per family. -/
def AgentkitRouteConfigurations : Family → List (String × AgentkitRouteConfiguration)
  | Family.EVM => [("CDPEvmWallet", evmCdpEvmWalletRoute), ("Viem", evmViemRoute),
                   ("Privy", evmPrivyRoute), ("CDPSmartWallet", evmCdpSmartWalletRoute)]
  | Family.CUSTOM_EVM => [("Viem", customEvmViemRoute)]
  | Family.SVM => [("CDPSolanaWallet", svmCdpSolanaWalletRoute),
                   ("SolanaKeypair", svmSolanaKeypairRoute), ("Privy", svmPrivyRoute)]

/-- A route configuration of the full-app framework registry (constants.ts lines 189-205). -/
structure NextTemplateRouteConfiguration where
  createAgentRoute : String
  apiRoute : String
deriving DecidableEq

/-- The framework route registry (constants.ts lines 194-205). -/
def NextTemplateRouteConfigurations : List (String × NextTemplateRouteConfiguration) :=
  [("Langchain", { createAgentRoute := "langchain/create-agent.ts",
                   apiRoute := "langchain/route.ts" }),
   ("Vercel AI SDK", { createAgentRoute := "vercel-ai-sdk/create-agent.ts",
                       apiRoute := "vercel-ai-sdk/route.ts" })]

/-- A route configuration of the MCP registry (constants.ts lines 207-249). -/
structure MCPRouteConfiguration where
  getAgentkitRoute : String
  configRoute : String
deriving DecidableEq

/-- The MCP route registry keyed by family then provider (constants.ts lines 207-249). -/
def MCPRouteConfigurations : Family → List (String × MCPRouteConfiguration)
  | Family.EVM =>
      [("CDPEvmWallet", { getAgentkitRoute := "evm/cdp/getAgentKit.ts",
                          configRoute := "evm/cdp/claude_desktop_config.json" }),
       ("Viem", { getAgentkitRoute := "evm/viem/getAgentKit.ts",
                  configRoute := "evm/viem/claude_desktop_config.json" }),
       ("Privy", { getAgentkitRoute := "evm/privy/getAgentKit.ts",
                   configRoute := "evm/privy/claude_desktop_config.json" }),
       ("CDPSmartWallet", { getAgentkitRoute := "evm/smart/getAgentKit.ts",
                            configRoute := "evm/smart/claude_desktop_config.json" })]
  | Family.CUSTOM_EVM =>
      [("Viem", { getAgentkitRoute := "custom-evm/viem/getAgentKit.ts",
                  configRoute := "custom-evm/viem/claude_desktop_config.json" })]
  | Family.SVM =>
      [("CDPSolanaWallet", { getAgentkitRoute := "svm/cdp/getAgentKit.ts",
                             configRoute := "svm/cdp/claude_desktop_config.json" }),
       ("SolanaKeypair", { getAgentkitRoute := "svm/solana-keypair/getAgentKit.ts",
                           configRoute := "svm/solana-keypair/claude_desktop_config.json" }),
       ("Privy", { getAgentkitRoute := "svm/privy/getAgentKit.ts",
                   configRoute := "svm/privy/claude_desktop_config.json" })]

/-- The per-provider default model table (constants.ts lines 298-302). -/
def DefaultModels : List (String × String) :=
  [("OpenAI", "gpt-4"), ("Gemini", "gemini-2.5-flash-lite"),
   ("Anthropic", "claude-3-5-sonnet-20241022")]

/-- The OpenAI case of `getModelProviderEnvConfig` (utils.ts lines 513-518). -/
def openAiEnvLines : List String :=
  ["# OpenAI Configuration",
   "# Get keys from OpenAI Platform: https://platform.openai.com/api-keys",
   "OPENAI_API_KEY=",
   "OPENAI_MODEL=" ++ (DefaultModels.lookup "OpenAI").getD ""]

/-- The Gemini case of `getModelProviderEnvConfig` (utils.ts lines 519-524). -/
def geminiEnvLines : List String :=
  ["# Google Gemini Configuration",
   "# Get keys from Google AI Studio: https://aistudio.google.com/app/apikey",
   "GEMINI_API_KEY=",
   "GEMINI_MODEL=" ++ (DefaultModels.lookup "Gemini").getD ""]

/-- The Anthropic case of `getModelProviderEnvConfig` (utils.ts lines 525-530). -/
def anthropicEnvLines : List String :=
  ["# Anthropic Configuration",
   "# Get keys from Anthropic Console: https://console.anthropic.com/",
   "ANTHROPIC_API_KEY=",
   "ANTHROPIC_MODEL=" ++ (DefaultModels.lookup "Anthropic").getD ""]

/-- `getModelProviderEnvConfig` (utils.ts lines 509-540): a switch over the
provider string with default parameter "OpenAI" and default case the OpenAI
block. -/
def getModelProviderEnvConfig (modelProvider : Option String) : List String :=
  let mp := modelProvider.getD "OpenAI"
  if mp = "OpenAI" then openAiEnvLines
  else if mp = "Gemini" then geminiEnvLines
  else if mp = "Anthropic" then anthropicEnvLines
  else openAiEnvLines

/-- The env-file line list built by `handleNextSelection` (utils.ts lines
744-759), before joining with newlines: model-provider block, blank line,
route comments, the "Required" header with one KEY= line per required name,
the "Optional" header with the NETWORK_ID line, the conditional RPC_URL and
CHAIN_ID lines, and one KEY= line per optional name. -/
def nextEnvLines (cfg : AgentkitRouteConfiguration)
    (network chainId rpcUrl modelProvider : Option String) : List String :=
  getModelProviderEnvConfig modelProvider
    ++ [""]
    ++ cfg.env.topComments.map (fun comment => "# " ++ comment)
    ++ ["\n# Required"]
    ++ cfg.env.required.map (fun line => line ++ "=")
    ++ ["\n# Optional"]
    ++ ["NETWORK_ID=" ++ network.getD ""]
    ++ (if truthy rpcUrl then ["RPC_URL=" ++ rpcUrl.getD ""] else [])
    ++ (if truthy chainId then ["CHAIN_ID=" ++ chainId.getD ""] else [])
    ++ cfg.env.optional.map (fun line => line ++ "=")

/-- Observer: the lines of the "Required" section of a rendered env line
list, i.e. the lines strictly between the Required and Optional headers. -/
def requiredSection (lines : List String) : List String :=
  (((lines.dropWhile (fun l => l ≠ "\n# Required")).drop 1).takeWhile
    (fun l => l ≠ "\n# Optional"))

/-- Observer: the lines of the "Optional" section of a rendered env line
list, i.e. the lines strictly after the Optional header. -/
def optionalSection (lines : List String) : List String :=
  (lines.dropWhile (fun l => l ≠ "\n# Optional")).drop 1

/-- JavaScript truthiness of an env-mapping entry: the key must be present
with a defined, non-empty string value. -/
def envTruthy (env : List (String × Option String)) (k : String) : Bool :=
  match env.lookup k with
  | some (some v) => v != ""
  | _ => false

/-- JavaScript object assignment on an insertion-ordered mapping: an
existing key keeps its position and gets the new value, a new key is
appended at the end. -/
def jsSet {α} (env : List (String × α)) (k : String) (v : α) : List (String × α) :=
  if (env.lookup k).isSome then env.map (fun p => if p.1 = k then (k, v) else p)
  else env ++ [(k, v)]

/-- `CHAIN_ID_TO_NETWORK_ID` (utils.ts lines 320-331), entries in source order. -/
def CHAIN_ID_TO_NETWORK_ID : List (Nat × String) :=
  [(1, "ethereum-mainnet"), (11155111, "ethereum-sepolia"), (137, "polygon-mainnet"),
   (80001, "polygon-mumbai"), (8453, "base-mainnet"), (84532, "base-sepolia"),
   (42161, "arbitrum-mainnet"), (421614, "arbitrum-sepolia"), (10, "optimism-mainnet"),
   (11155420, "optimism-sepolia")]

/-- Insertion of an entry into a key-sorted entry list. -/
def insertByKey (p : Nat × String) : List (Nat × String) → List (Nat × String)
  | [] => [p]
  | q :: l => if p.1 ≤ q.1 then p :: q :: l else q :: insertByKey p l

/-- JavaScript Object.entries on an integer-keyed object enumerates entries
in ascending numeric key order; modelled by an insertion sort on the keys. -/
def objectEntriesNumeric : List (Nat × String) → List (Nat × String)
  | [] => []
  | p :: l => insertByKey p (objectEntriesNumeric l)

/-- `NETWORK_ID_TO_CHAIN_ID` (utils.ts lines 337-345): the reduce over
Object.entries of the forward table, assigning the decimal chain-id string
under each network-id key. -/
def NETWORK_ID_TO_CHAIN_ID : List (String × String) :=
  (objectEntriesNumeric CHAIN_ID_TO_NETWORK_ID).foldl
    (fun acc p => jsSet acc p.2 (toString p.1)) []

/-- The parts of the parsed claude_desktop_config.json template that the
patcher reads and writes: the first launch argument and the env mapping of
the single agentkit server entry. Env values are `Option String` so that a
JavaScript assignment of `undefined` (a failed reverse-table lookup) is
representable. -/
structure McpConfigJson where
  args0 : String
  env : List (String × Option String)
deriving DecidableEq

/-- One-character classes appearing in the rewriter's patterns: whitespace,
word characters, a quote, any character except a closing parenthesis, and
any character except a quote. -/
inductive CharClass where
  | ws
  | word
  | quote
  | notRparen
  | notQuote
deriving DecidableEq

/-- Which characters a class accepts, following the JavaScript classes
\s, \w, ["'], [^)] and [^"']. -/
def CharClass.matchesChar : CharClass → Char → Bool
  | CharClass.ws, c =>
      c == ' ' || c == '\t' || c == '\n' || c == '\r' || c == '\x0b' || c == '\x0c'
  | CharClass.word, c =>
      (decide ('a' ≤ c) && decide (c ≤ 'z')) || (decide ('A' ≤ c) && decide (c ≤ 'Z'))
        || (decide ('0' ≤ c) && decide (c ≤ '9')) || c == '_'
  | CharClass.quote, c => c == '"' || c == '\''
  | CharClass.notRparen, c => c != ')'
  | CharClass.notQuote, c => !(c == '"' || c == '\'')

/-- Pattern tokens: a literal character, one occurrence of a class, zero or
more (greedy), or one or more (greedy). Every repetition in the source's
patterns applies to a single-character class, so this token language covers
them exactly. -/
inductive Tok where
  | lit (c : Char)
  | one (cc : CharClass)
  | star (cc : CharClass)
  | plus (cc : CharClass)
deriving DecidableEq

/-- Greedy backtracking matcher: attempts to match the token list at the
start of the character list and returns the unmatched remainder on success.
Fuel only bounds recursion depth; every call strictly decreases
tokens + characters, so the wrapper's fuel is always sufficient. -/
def matchToks : Nat → List Tok → List Char → Option (List Char)
  | 0, _, _ => none
  | _ + 1, [], s => some s
  | fuel + 1, Tok.lit c :: ts, s =>
    match s with
    | [] => none
    | d :: s2 => if d = c then matchToks fuel ts s2 else none
  | fuel + 1, Tok.one cc :: ts, s =>
    match s with
    | [] => none
    | d :: s2 => if cc.matchesChar d then matchToks fuel ts s2 else none
  | fuel + 1, Tok.plus cc :: ts, s =>
    match s with
    | [] => none
    | d :: s2 => if cc.matchesChar d then matchToks fuel (Tok.star cc :: ts) s2 else none
  | fuel + 1, Tok.star cc :: ts, s =>
    match s with
    | [] => matchToks fuel ts []
    | d :: s2 =>
      if cc.matchesChar d then
        match matchToks fuel (Tok.star cc :: ts) s2 with
        | some r => some r
        | none => matchToks fuel ts s
      else matchToks fuel ts s

/-- Matching at a fixed position, with sufficient fuel. -/
def matchToksAt (toks : List Tok) (s : List Char) : Option (List Char) :=
  matchToks (toks.length + s.length + 1) toks s

/-- Whether the pattern matches at any position of the character list. -/
def hasMatchIn (toks : List Tok) : List Char → Bool
  | [] => (matchToksAt toks []).isSome
  | c :: s => (matchToksAt toks (c :: s)).isSome || hasMatchIn toks s

/-- Replace the leftmost match of the pattern by the replacement; on no
match the input is returned unchanged (JavaScript String.replace). -/
def replaceFirstAux (toks : List Tok) (repl : List Char) : List Char → Option (List Char)
  | [] =>
    match matchToksAt toks [] with
    | some _ => some repl
    | none => none
  | c :: s =>
    match matchToksAt toks (c :: s) with
    | some rest => some (repl ++ rest)
    | none => (replaceFirstAux toks repl s).map (fun r => c :: r)

/-- String-level first-match replacement. -/
def replaceFirst (toks : List Tok) (repl : String) (s : String) : String :=
  match replaceFirstAux toks repl.data s.data with
  | some r => ⟨r⟩
  | none => s

/-- A plain substring, as an all-literal pattern. -/
def lits (s : String) : List Tok := s.data.map Tok.lit

/-- JavaScript String.includes: substring occurrence. -/
def containsSubstr (needle : String) (s : String) : Bool := hasMatchIn (lits needle) s.data

/-- JavaScript toUpperCase restricted to the per-character case mapping,
which agrees with it on the ASCII provider names involved; structural so
that the kernel can evaluate it. -/
def jsToUpper (s : String) : String := ⟨s.data.map Char.toUpper⟩

/-- The model-provider injection step of the config patcher (utils.ts lines
841-846): when the provider is truthy, assign `<PROVIDER>_API_KEY` to the
empty string and `<PROVIDER>_MODEL` to the provider's default model (empty
for unknown providers). -/
def injectModelProvider (env : List (String × Option String))
    (modelProvider : Option String) : List (String × Option String) :=
  if truthy modelProvider then
    let mp := modelProvider.getD ""
    let env2 := jsSet env (jsToUpper mp ++ "_API_KEY") (some "")
    jsSet env2 (jsToUpper mp ++ "_MODEL") (some ((DefaultModels.lookup mp).getD ""))
  else env

/-- The network step of the config patcher (utils.ts lines 848-857): when
the network is truthy, assign NETWORK_ID only when that entry is truthy, and
then assign CHAIN_ID via the reverse table only when that entry is truthy. -/
def applyNetworkStep (env : List (String × Option String))
    (network : Option String) : List (String × Option String) :=
  if truthy network then
    let env2 :=
      if envTruthy env "NETWORK_ID" then jsSet env "NETWORK_ID" (some (network.getD ""))
      else env
    if envTruthy env2 "CHAIN_ID" then
      jsSet env2 "CHAIN_ID" (NETWORK_ID_TO_CHAIN_ID.lookup (network.getD ""))
    else env2
  else env

/-- The explicit chain-id step of the config patcher (utils.ts lines
859-861): a truthy chainId is assigned to CHAIN_ID unconditionally. -/
def applyChainIdStep (env : List (String × Option String))
    (chainId : Option String) : List (String × Option String) :=
  if truthy chainId then jsSet env "CHAIN_ID" (some (chainId.getD "")) else env

/-- `copyAndReplaceConfig` (utils.ts lines 828-867), the pure part the spec
calls patchRuntimeConfig: replace the first occurrence of the literal
placeholder in the first launch argument by the destination root, then run
the model-provider injection, the network step and the chain-id step on the
env mapping, in source order. -/
def copyAndReplaceConfig (cfg : McpConfigJson) (root : String)
    (modelProvider network chainId : Option String) : McpConfigJson :=
  { args0 := replaceFirst (lits "{absolutePath}") root cfg.args0,
    env := applyChainIdStep
      (applyNetworkStep (injectModelProvider cfg.env modelProvider) network) chainId }

/-- A filesystem operation emitted by the assembly drivers: a file write
with known content, a write of the patched runtime config, a rename, an
in-place patch of an existing file whose content depends on prior disk
state, or a recursive delete. -/
inductive FsOp where
  | writeFile (path : String) (content : String)
  | writeConfig (path : String) (cfg : McpConfigJson)
  | rename (src : String) (dest : String)
  | patchFile (path : String)
  | rmRf (path : String)
deriving DecidableEq

/-- path.join restricted to the two-argument uses in the source. -/
def pathJoin (a b : String) : String := a ++ "/" ++ b

/-- `handleNextSelection` (utils.ts lines 713-783), as a pure function from
the selection to the emitted filesystem-operation trace or an error. All
three validation checks precede every filesystem call in the source, so an
error result carries an empty trace. -/
def handleNextSelection (root framework walletProvider : String)
    (network chainId rpcUrl modelProvider : Option String) : List FsOp × Option String :=
  let agentDir := pathJoin (pathJoin (pathJoin root "app") "api") "agent"
  match getNetworkType network chainId with
  | none => ([], some "Unsupported network and chainId selected")
  | some networkFamily =>
    match (AgentkitRouteConfigurations networkFamily).lookup walletProvider,
          NextTemplateRouteConfigurations.lookup framework with
    | none, _ => ([], some "Selected invalid network & wallet provider combination")
    | some _, none => ([], some "Selected invalid framework for this template")
    | some agentkitRouteConfig, some frameworkRouteConfig =>
      ([FsOp.writeFile (pathJoin root ".env.local")
          (String.intercalate "\n"
            (nextEnvLines agentkitRouteConfig network chainId rpcUrl modelProvider)),
        FsOp.rename
          (pathJoin (pathJoin agentDir "agentkit") agentkitRouteConfig.prepareAgentkitRoute)
          (pathJoin agentDir "prepare-agentkit.ts"),
        FsOp.rename
          (pathJoin (pathJoin agentDir "framework") frameworkRouteConfig.createAgentRoute)
          (pathJoin agentDir "create-agent.ts"),
        FsOp.rename
          (pathJoin (pathJoin agentDir "framework") frameworkRouteConfig.apiRoute)
          (pathJoin agentDir "route.ts"),
        FsOp.patchFile (pathJoin agentDir "create-agent.ts"),
        FsOp.patchFile (pathJoin root "package.json"),
        FsOp.rmRf (pathJoin agentDir "agentkit"),
        FsOp.rmRf (pathJoin agentDir "framework")], none)

/-- `handleMcpSelection` (utils.ts lines 804-881), as a pure function; the
parsed config template stands for the file read from the selected config
route. Both validation checks precede every filesystem call in the source,
so an error result carries an empty trace. -/
def handleMcpSelection (root walletProvider : String)
    (network chainId modelProvider : Option String) (template : McpConfigJson) :
    List FsOp × Option String :=
  let srcDir := pathJoin root "src"
  match getNetworkType network chainId with
  | none => ([], some "Unsupported network and chainId selected")
  | some networkFamily =>
    match (MCPRouteConfigurations networkFamily).lookup walletProvider with
    | none => ([], some "Selected invalid network & wallet provider combination")
    | some mcpConfig =>
      ([FsOp.writeConfig (pathJoin root "claude_desktop_config.json")
          (copyAndReplaceConfig template root modelProvider network chainId),
        FsOp.rename (pathJoin (pathJoin srcDir "agentkit") mcpConfig.getAgentkitRoute)
          (pathJoin srcDir "getAgentKit.ts"),
        FsOp.rmRf (pathJoin srcDir "agentkit")], none)

/-- The per-provider substitution triple used by the source rewriter. -/
structure ProviderRewriteConfig where
  importLine : String
  constructorLine : String
  envKey : String
  envVar : String
deriving DecidableEq

/-- The LangChain substitution table (utils.ts lines 606-625). -/
def langchainProviderConfigs : List (String × ProviderRewriteConfig) :=
  [("OpenAI",
    { importLine := "import \x7b ChatOpenAI \x7d from \"@langchain/openai\";",
      constructorLine := "const llm = new ChatOpenAI(\x7b model: \"gpt-4o-mini\" \x7d);",
      envKey := "OPENAI_API_KEY", envVar := "process.env.OPENAI_API_KEY" }),
   ("Gemini",
    { importLine := "import \x7b ChatGoogleGenerativeAI \x7d from \"@langchain/google-genai\";",
      constructorLine := "const llm = new ChatGoogleGenerativeAI(\x7b model: \"gemini-pro\" \x7d);",
      envKey := "GEMINI_API_KEY", envVar := "process.env.GEMINI_API_KEY" }),
   ("Anthropic",
    { importLine := "import \x7b ChatAnthropic \x7d from \"@langchain/anthropic\";",
      constructorLine :=
        "const llm = new ChatAnthropic(\x7b model: \"claude-3-5-sonnet-20241022\" \x7d);",
      envKey := "ANTHROPIC_API_KEY", envVar := "process.env.ANTHROPIC_API_KEY" })]

/-- The Vercel AI SDK substitution table (utils.ts lines 648-667). -/
def vercelProviderConfigs : List (String × ProviderRewriteConfig) :=
  [("OpenAI",
    { importLine := "import \x7b openai \x7d from \"@ai-sdk/openai\";",
      constructorLine := "const model = openai(\"gpt-4o-mini\");",
      envKey := "OPENAI_API_KEY", envVar := "process.env.OPENAI_API_KEY" }),
   ("Gemini",
    { importLine := "import \x7b google \x7d from \"@ai-sdk/google\";",
      constructorLine := "const model = google(\"gemini-pro\");",
      envKey := "GOOGLE_GENERATIVE_AI_API_KEY",
      envVar := "process.env.GOOGLE_GENERATIVE_AI_API_KEY" }),
   ("Anthropic",
    { importLine := "import \x7b anthropic \x7d from \"@ai-sdk/anthropic\";",
      constructorLine := "const model = anthropic(\"claude-3-5-sonnet-20241022\");",
      envKey := "ANTHROPIC_API_KEY", envVar := "process.env.ANTHROPIC_API_KEY" })]

/-- Table lookup with the source's `|| table.OpenAI` fallback for unknown
provider strings. -/
def lookupProviderConfig (tbl : List (String × ProviderRewriteConfig)) (mp : String) :
    ProviderRewriteConfig :=
  match tbl.lookup mp with
  | some c => c
  | none =>
    (tbl.lookup "OpenAI").getD
      { importLine := "", constructorLine := "", envKey := "", envVar := "" }

/-- The guard replacement template literal of the source rewriter. -/
def guardReplacement (envVar envKey : String) : String :=
  "if (!" ++ envVar ++ ") \x7b\n    throw new Error(\"I need an " ++ envKey
    ++ " in your .env file to power my intelligence.\");\n  \x7d"

/-- The LangChain import pattern. -/
def langImportToks : List Tok :=
  lits "import" ++ [Tok.plus CharClass.ws] ++ lits "\x7b" ++ [Tok.star CharClass.ws]
    ++ lits "Chat" ++ [Tok.plus CharClass.word] ++ [Tok.star CharClass.ws] ++ lits "\x7d"
    ++ [Tok.plus CharClass.ws] ++ lits "from" ++ [Tok.plus CharClass.ws]
    ++ [Tok.one CharClass.quote] ++ lits "@langchain/" ++ [Tok.plus CharClass.word]
    ++ [Tok.one CharClass.quote] ++ lits ";"

/-- The missing-API-key guard pattern, shared by both branches. -/
def guardToks : List Tok :=
  lits "if" ++ [Tok.plus CharClass.ws] ++ lits "(!process.env.OPENAI_API_KEY)"
    ++ [Tok.star CharClass.ws] ++ lits "\x7b" ++ [Tok.star CharClass.ws] ++ lits "throw"
    ++ [Tok.plus CharClass.ws] ++ lits "new" ++ [Tok.plus CharClass.ws] ++ lits "Error("
    ++ [Tok.plus CharClass.notRparen] ++ lits ");" ++ [Tok.star CharClass.ws] ++ lits "\x7d"

/-- The LangChain model-construction pattern. -/
def langCtorToks : List Tok :=
  lits "const" ++ [Tok.plus CharClass.ws] ++ lits "llm" ++ [Tok.star CharClass.ws]
    ++ lits "=" ++ [Tok.star CharClass.ws] ++ lits "new" ++ [Tok.plus CharClass.ws]
    ++ lits "Chat" ++ [Tok.plus CharClass.word] ++ [Tok.star CharClass.ws] ++ lits "("
    ++ [Tok.star CharClass.ws] ++ lits "\x7b" ++ [Tok.star CharClass.ws] ++ lits "model"
    ++ [Tok.star CharClass.ws] ++ lits ":" ++ [Tok.star CharClass.ws]
    ++ [Tok.one CharClass.quote] ++ [Tok.plus CharClass.notQuote]
    ++ [Tok.one CharClass.quote] ++ [Tok.star CharClass.ws] ++ lits "\x7d"
    ++ [Tok.star CharClass.ws] ++ lits ");"

/-- The Vercel AI SDK import pattern. -/
def vercelImportToks : List Tok :=
  lits "import" ++ [Tok.plus CharClass.ws] ++ lits "\x7b" ++ [Tok.star CharClass.ws]
    ++ [Tok.plus CharClass.word] ++ [Tok.star CharClass.ws] ++ lits "\x7d"
    ++ [Tok.plus CharClass.ws] ++ lits "from" ++ [Tok.plus CharClass.ws]
    ++ [Tok.one CharClass.quote] ++ lits "@ai-sdk/" ++ [Tok.plus CharClass.word]
    ++ [Tok.one CharClass.quote] ++ lits ";"

/-- The Vercel AI SDK model-construction pattern. -/
def vercelCtorToks : List Tok :=
  lits "const" ++ [Tok.plus CharClass.ws] ++ lits "model" ++ [Tok.star CharClass.ws]
    ++ lits "=" ++ [Tok.star CharClass.ws] ++ [Tok.plus CharClass.word]
    ++ [Tok.star CharClass.ws] ++ lits "(" ++ [Tok.star CharClass.ws]
    ++ [Tok.one CharClass.quote] ++ [Tok.plus CharClass.notQuote]
    ++ [Tok.one CharClass.quote] ++ [Tok.star CharClass.ws] ++ lits ");"

/-- `updateCreateAgentWithModelProvider` (utils.ts lines 594-691), as a pure
text transformation: detect the calling framework by import signature, then
apply the three first-match substitutions of the selected provider triple;
with neither signature the text is returned unchanged. The source performs
no validation and contains no throw, which the total return type reflects. -/
def updateCreateAgentWithModelProvider (content : String)
    (modelProvider : Option String) : String :=
  let mp := modelProvider.getD "OpenAI"
  let isLangChain := containsSubstr "@langchain/langgraph" content
  let isVercelAI := containsSubstr "@ai-sdk/openai" content
  if isLangChain then
    let config := lookupProviderConfig langchainProviderConfigs mp
    let c1 := replaceFirst langImportToks config.importLine content
    let c2 := replaceFirst guardToks (guardReplacement config.envVar config.envKey) c1
    replaceFirst langCtorToks config.constructorLine c2
  else if isVercelAI then
    let config := lookupProviderConfig vercelProviderConfigs mp
    let c1 := replaceFirst vercelImportToks config.importLine content
    let c2 := replaceFirst guardToks (guardReplacement config.envVar config.envKey) c1
    replaceFirst vercelCtorToks config.constructorLine c2
  else content

/-- The route-configuration argument of the concrete renderEnv example:
one required variable CDP_API_KEY_ID, no optional variables, no comments. -/
def cdpKeyOnlyRouteConfig : AgentkitRouteConfiguration :=
  { env := { topComments := [], required := ["CDP_API_KEY_ID"], optional := [] },
    prepareAgentkitRoute := "" }

/-- Claim C1 (counterexample): the wallet-provider mapping does not factor
through the network family. `arbitrum-mainnet` and `arbitrum-sepolia` are
both classified EVM, yet the table offers them different provider sets. -/
theorem claim_C1_counterexample :
    getNetworkType (some "arbitrum-mainnet") none = some Family.EVM ∧
    getNetworkType (some "arbitrum-sepolia") none = some Family.EVM ∧
    getWalletProviders (some "arbitrum-mainnet") ≠
      getWalletProviders (some "arbitrum-sepolia") := by
  refine ⟨rfl, rfl, ?_⟩
  decide

/-- Claim C1 (amended): the provider set offered for a Network is determined
by the individual Network, not by its family alone: every EVM network gets
either the CDP-supported or the non-CDP EVM list, every SVM network gets the
single SVM list; the set is always non-empty, and the CLI marks its first
element as the default choice. -/
theorem claim_C1 : ∀ n ∈ Networks,
    getWalletProviders (some n) ≠ [] ∧
    (n ∈ EVM_NETWORKS →
      getWalletProviders (some n) = CDP_SUPPORTED_EVM_WALLET_PROVIDERS ∨
      getWalletProviders (some n) = NON_CDP_SUPPORTED_EVM_WALLET_PROVIDERS) ∧
    (n ∈ SVM_NETWORKS → getWalletProviders (some n) = SVM_WALLET_PROVIDERS) ∧
    (walletProviderChoices (some n)).headD ("", "") =
      (((getWalletProviders (some n)).headD "") ++ " (default)",
        (getWalletProviders (some n)).headD "") := by
  decide

/-- Claim C1 witness: the amended statement instantiated at `base-sepolia`. -/
theorem claim_C1_witness :
    "base-sepolia" ∈ Networks ∧
    (getWalletProviders (some "base-sepolia") ≠ [] ∧
     ("base-sepolia" ∈ EVM_NETWORKS →
       getWalletProviders (some "base-sepolia") = CDP_SUPPORTED_EVM_WALLET_PROVIDERS ∨
       getWalletProviders (some "base-sepolia") = NON_CDP_SUPPORTED_EVM_WALLET_PROVIDERS) ∧
     ("base-sepolia" ∈ SVM_NETWORKS →
       getWalletProviders (some "base-sepolia") = SVM_WALLET_PROVIDERS) ∧
     (walletProviderChoices (some "base-sepolia")).headD ("", "") =
       (((getWalletProviders (some "base-sepolia")).headD "") ++ " (default)",
         (getWalletProviders (some "base-sepolia")).headD "")) :=
  ⟨by decide, claim_C1 "base-sepolia" (by decide)⟩

/-- Claim C2: classification of a (network, chainId) pair. A network in the
EVM set classifies as EVM, one in the SVM set as SVM; otherwise a truthy
chainId gives CUSTOM_EVM and untruthy chainId gives null. The two network
sets are disjoint, so no network classifies as both, and classifying
(undefined, undefined) gives null. -/
theorem claim_C2 (network chainId : Option String) :
    (∀ n, network = some n → n ∈ EVM_NETWORKS →
      getNetworkType network chainId = some Family.EVM) ∧
    (∀ n, network = some n → n ∈ SVM_NETWORKS →
      getNetworkType network chainId = some Family.SVM) ∧
    ((∀ n, network = some n → n ∉ EVM_NETWORKS ∧ n ∉ SVM_NETWORKS) →
      truthy chainId = true → getNetworkType network chainId = some Family.CUSTOM_EVM) ∧
    ((∀ n, network = some n → n ∉ EVM_NETWORKS ∧ n ∉ SVM_NETWORKS) →
      truthy chainId = false → getNetworkType network chainId = none) ∧
    (∀ n, n ∈ EVM_NETWORKS → n ∉ SVM_NETWORKS) ∧
    getNetworkType none none = none := by
  refine ⟨?_, ?_, ?_, ?_, by decide, rfl⟩
  · rintro n rfl hmem
    fin_cases hmem <;> rfl
  · rintro n rfl hmem
    fin_cases hmem <;> rfl
  · intro hno hc
    match network with
    | none => simp [getNetworkType, truthy, hc]; exact hc
    | some n =>
      obtain ⟨h1, h2⟩ := hno n rfl
      by_cases hne : n = ""
      · subst hne
        simp [getNetworkType, truthy, hc]
        exact hc
      · simp [getNetworkType, truthy, hne, h1, h2, hc]
        exact hc
  · intro hno hc
    match network with
    | none => simp [getNetworkType, truthy, hc]; exact hc
    | some n =>
      obtain ⟨h1, h2⟩ := hno n rfl
      by_cases hne : n = ""
      · subst hne
        simp [getNetworkType, truthy, hc]
        exact hc
      · simp [getNetworkType, truthy, hne, h1, h2, hc]
        exact hc

/-- Claim C2 witness: `base-sepolia` with no chainId classifies as EVM. -/
theorem claim_C2_witness :
    getNetworkType (some "base-sepolia") none = some Family.EVM :=
  (claim_C2 (some "base-sepolia") none).1 "base-sepolia" rfl (by decide)

/-- Two strings differing in their first character are different. -/
theorem string_head_ne {c d : Char} (hcd : c ≠ d) (s t : List Char) :
    (⟨c :: s⟩ : String) ≠ ⟨d :: t⟩ := by
  intro he
  have hd := congrArg String.data he
  simp only [List.cons.injEq] at hd
  exact hcd hd.1

/-- Appending different final characters to strings yields different strings. -/
theorem string_last_char_ne (a b : String) {c d : Char} (hcd : c ≠ d)
    (h : a ++ (⟨[c]⟩ : String) = b ++ ⟨[d]⟩) : False := by
  have hd := congrArg String.data h
  rw [String.data_append, String.data_append] at hd
  have h2 := (List.append_inj' hd rfl).2
  simp only [List.cons.injEq] at h2
  exact hcd h2.1

/-- Right cancellation for string append. -/
theorem string_append_right_cancel (a b c : String) (h : a ++ c = b ++ c) : a = b := by
  apply String.ext
  have hd := congrArg String.data h
  rw [String.data_append, String.data_append] at hd
  exact (List.append_inj' hd rfl).1

/-- A comment-prefixed line never equals a string starting with a newline. -/
theorem comment_line_ne_marker (c m : String) (hm : m.data.head? = some '\n') :
    "# " ++ c ≠ m := by
  have h1 : ("# " ++ c : String) = ⟨'#' :: ' ' :: c.data⟩ := by
    apply String.ext
    rw [String.data_append]
    rfl
  rw [h1]
  intro he
  have hd := congrArg String.data he
  rw [← hd] at hm
  simp at hm

/-- Dropping while a predicate holds skips a block where it holds everywhere. -/
theorem dropWhile_append_all {α} (p : α → Bool) {l₁ : List α} (l₂ : List α)
    (h : ∀ x ∈ l₁, p x = true) : (l₁ ++ l₂).dropWhile p = l₂.dropWhile p := by
  induction l₁ with
  | nil => rfl
  | cons a l ih =>
    rw [List.cons_append, List.dropWhile_cons, if_pos (h a (List.mem_cons_self a l))]
    exact ih (fun x hx => h x (List.mem_cons_of_mem a hx))

/-- Dropping while a predicate holds stops exactly at the first failure. -/
theorem dropWhile_append_stop {α} (p : α → Bool) {l₁ : List α} (x : α) (l₂ : List α)
    (h : ∀ y ∈ l₁, p y = true) (hx : p x = false) :
    (l₁ ++ x :: l₂).dropWhile p = x :: l₂ := by
  rw [dropWhile_append_all p (x :: l₂) h, List.dropWhile_cons, if_neg (by simp [hx])]

/-- Taking while a predicate holds keeps exactly the leading block where it
holds, stopping at the first failure. -/
theorem takeWhile_append_stop {α} (p : α → Bool) {l₁ : List α} (x : α) (l₂ : List α)
    (h : ∀ y ∈ l₁, p y = true) (hx : p x = false) :
    (l₁ ++ x :: l₂).takeWhile p = l₁ := by
  induction l₁ with
  | nil => simp [List.takeWhile_cons, hx]
  | cons a l ih =>
    rw [List.cons_append, List.takeWhile_cons, if_pos (h a (List.mem_cons_self a l))]
    rw [ih (fun y hy => h y (List.mem_cons_of_mem a hy))]

/-- The emitted model-provider block is always one of the three literal blocks. -/
theorem getModelProviderEnvConfig_cases (mp : Option String) :
    getModelProviderEnvConfig mp = openAiEnvLines ∨
    getModelProviderEnvConfig mp = geminiEnvLines ∨
    getModelProviderEnvConfig mp = anthropicEnvLines := by
  match mp with
  | none => exact Or.inl rfl
  | some s =>
    by_cases h1 : s = "OpenAI"
    · subst h1; exact Or.inl rfl
    by_cases h2 : s = "Gemini"
    · subst h2; exact Or.inr (Or.inl rfl)
    by_cases h3 : s = "Anthropic"
    · subst h3; exact Or.inr (Or.inr rfl)
    · exact Or.inl (by simp [getModelProviderEnvConfig, h1, h2, h3])

/-- No line of a model-provider block is a section marker or a bare
RPC_URL= or CHAIN_ID= assignment. -/
theorem getModelProviderEnvConfig_no_markers (mp : Option String) :
    ∀ x ∈ getModelProviderEnvConfig mp,
      x ≠ "\n# Required" ∧ x ≠ "\n# Optional" ∧ x ≠ "RPC_URL=" ∧ x ≠ "CHAIN_ID=" := by
  rcases getModelProviderEnvConfig_cases mp with h | h | h <;> rw [h] <;> decide

/-- The rendered env line list, reassociated to expose the Required marker. -/
theorem nextEnvLines_shape (cfg : AgentkitRouteConfiguration) (n : String)
    (cid rpc mp : Option String) :
    nextEnvLines cfg (some n) cid rpc mp =
      (getModelProviderEnvConfig mp ++ "" :: cfg.env.topComments.map (fun c => "# " ++ c))
        ++ "\n# Required" :: (cfg.env.required.map (fun l => l ++ "=")
        ++ "\n# Optional" :: ("NETWORK_ID=" ++ n)
          :: ((if truthy rpc then ["RPC_URL=" ++ rpc.getD ""] else [])
          ++ (if truthy cid then ["CHAIN_ID=" ++ cid.getD ""] else [])
          ++ cfg.env.optional.map (fun l => l ++ "="))) := by
  simp [nextEnvLines, List.append_assoc]

/-- No line emitted before the Required marker is a section marker. -/
theorem pre_required_no_markers (cfg : AgentkitRouteConfiguration) (mp : Option String) :
    ∀ x ∈ getModelProviderEnvConfig mp ++ "" :: cfg.env.topComments.map (fun c => "# " ++ c),
      x ≠ "\n# Required" ∧ x ≠ "\n# Optional" := by
  intro x hx
  rcases List.mem_append.mp hx with hA | hBC
  · have h := getModelProviderEnvConfig_no_markers mp x hA
    exact ⟨h.1, h.2.1⟩
  · rcases List.mem_cons.mp hBC with rfl | hC
    · exact ⟨by decide, by decide⟩
    · obtain ⟨c, _, rfl⟩ := List.mem_map.mp hC
      exact ⟨comment_line_ne_marker c _ rfl, comment_line_ne_marker c _ rfl⟩

/-- A KEY= assignment line never equals either section marker. -/
theorem req_line_ne_markers (l : String) :
    l ++ "=" ≠ "\n# Required" ∧ l ++ "=" ≠ "\n# Optional" := by
  constructor
  · intro h
    have he : l ++ (⟨['=']⟩ : String) = "\n# Require" ++ ⟨['d']⟩ := by
      have h1 : (⟨['=']⟩ : String) = "=" := by decide
      have h2 : "\n# Require" ++ (⟨['d']⟩ : String) = "\n# Required" := by decide
      rw [h1, h2, h]
    exact (string_last_char_ne l "\n# Require" (by decide) he).elim
  · intro h
    have he : l ++ (⟨['=']⟩ : String) = "\n# Optiona" ++ ⟨['l']⟩ := by
      have h1 : (⟨['=']⟩ : String) = "=" := by decide
      have h2 : "\n# Optiona" ++ (⟨['l']⟩ : String) = "\n# Optional" := by decide
      rw [h1, h2, h]
    exact (string_last_char_ne l "\n# Optiona" (by decide) he).elim

/-- Reassociation of a doubly marked list. -/
theorem append_cons_assoc {α} (l₁ : List α) (x : α) (l₂ : List α) (y : α) (l₃ : List α) :
    l₁ ++ x :: (l₂ ++ y :: l₃) = (l₁ ++ x :: l₂) ++ y :: l₃ := by
  simp

/-- The Required section of a rendered env file is exactly one KEY= line per
required variable name. -/
theorem requiredSection_nextEnvLines (cfg : AgentkitRouteConfiguration) (n : String)
    (cid rpc mp : Option String) :
    requiredSection (nextEnvLines cfg (some n) cid rpc mp) =
      cfg.env.required.map (fun l => l ++ "=") := by
  rw [nextEnvLines_shape]
  unfold requiredSection
  rw [dropWhile_append_stop]
  · simp only [List.drop_succ_cons, List.drop_zero]
    rw [takeWhile_append_stop]
    · intro y hy
      obtain ⟨a, _, rfl⟩ := List.mem_map.mp hy
      simp only [decide_eq_true_eq]
      exact (req_line_ne_markers a).2
    · simp
  · intro x hx
    simp only [decide_eq_true_eq]
    exact (pre_required_no_markers cfg mp x hx).1
  · simp

/-- The Optional section of a rendered env file is the NETWORK_ID line, the
conditional RPC_URL and CHAIN_ID lines, then one KEY= line per optional
variable name. -/
theorem optionalSection_nextEnvLines (cfg : AgentkitRouteConfiguration) (n : String)
    (cid rpc mp : Option String) :
    optionalSection (nextEnvLines cfg (some n) cid rpc mp) =
      ("NETWORK_ID=" ++ n)
        :: ((if truthy rpc then ["RPC_URL=" ++ rpc.getD ""] else [])
        ++ (if truthy cid then ["CHAIN_ID=" ++ cid.getD ""] else [])
        ++ cfg.env.optional.map (fun l => l ++ "=")) := by
  rw [nextEnvLines_shape, append_cons_assoc]
  unfold optionalSection
  rw [dropWhile_append_stop]
  · simp only [List.drop_succ_cons, List.drop_zero]
  · intro x hx
    simp only [decide_eq_true_eq]
    rcases List.mem_append.mp hx with h1 | h2
    · exact (pre_required_no_markers cfg mp x h1).2
    · rcases List.mem_cons.mp h2 with rfl | h3
      · decide
      · obtain ⟨a, _, rfl⟩ := List.mem_map.mp h3
        exact (req_line_ne_markers a).2
  · simp

/-- Membership of a KEY= line in a mapped assignment list mirrors membership
of the key in the variable-name list. -/
theorem mem_map_eq_line (k : String) (L : List String) :
    (k ++ "=") ∈ L.map (fun l => l ++ "=") ↔ k ∈ L := by
  rw [List.mem_map]
  constructor
  · rintro ⟨a, ha, he⟩
    rwa [string_append_right_cancel a k "=" he] at ha
  · intro h
    exact ⟨k, h, rfl⟩

/-- The RPC_URL= line differs from every NETWORK_ID line. -/
theorem rpc_line_ne_network_line (n : String) : "RPC_URL=" ≠ "NETWORK_ID=" ++ n := by
  have h0 : ("RPC_URL=" : String) = ⟨'R' :: "PC_URL=".data⟩ := by decide
  have h1 : ("NETWORK_ID=" ++ n : String) = ⟨'N' :: ("ETWORK_ID=".data ++ n.data)⟩ := by
    apply String.ext
    rw [String.data_append]
    rfl
  rw [h0, h1]
  exact string_head_ne (by decide) _ _

/-- The CHAIN_ID= line differs from every NETWORK_ID line. -/
theorem chain_line_ne_network_line (n : String) : "CHAIN_ID=" ≠ "NETWORK_ID=" ++ n := by
  have h0 : ("CHAIN_ID=" : String) = ⟨'C' :: "HAIN_ID=".data⟩ := by decide
  have h1 : ("NETWORK_ID=" ++ n : String) = ⟨'N' :: ("ETWORK_ID=".data ++ n.data)⟩ := by
    apply String.ext
    rw [String.data_append]
    rfl
  rw [h0, h1]
  exact string_head_ne (by decide) _ _

/-- Claim C7: the rendered env text begins with exactly one model-provider
block matching the requested provider; an unset or unrecognized provider
yields the OpenAI block. The block equalities name the provider-specific
comment, API-key and default-model lines, the filter fact shows exactly one
provider API-key line is emitted, and the final conjunct shows the rendered
env line list starts with that block. -/
theorem claim_C7 (modelProvider : Option String) :
    (modelProvider = some "Gemini" →
      getModelProviderEnvConfig modelProvider = geminiEnvLines) ∧
    (modelProvider = some "Anthropic" →
      getModelProviderEnvConfig modelProvider = anthropicEnvLines) ∧
    ((modelProvider = none ∨
      (modelProvider ≠ some "Gemini" ∧ modelProvider ≠ some "Anthropic")) →
      getModelProviderEnvConfig modelProvider = openAiEnvLines) ∧
    ((getModelProviderEnvConfig modelProvider).filter
      (fun l => l ∈ ["OPENAI_API_KEY=", "GEMINI_API_KEY=", "ANTHROPIC_API_KEY="])).length
        = 1 ∧
    (∀ cfg network chainId rpcUrl, ∃ rest,
      nextEnvLines cfg network chainId rpcUrl modelProvider =
        getModelProviderEnvConfig modelProvider ++ rest) := by
  refine ⟨?_, ?_, ?_, ?_, ?_⟩
  · rintro rfl; rfl
  · rintro rfl; rfl
  · rintro (rfl | ⟨hg, ha⟩)
    · rfl
    · match modelProvider, hg, ha with
      | none, _, _ => rfl
      | some s, hg, ha =>
        have hg2 : s ≠ "Gemini" := by simpa using hg
        have ha2 : s ≠ "Anthropic" := by simpa using ha
        by_cases ho : s = "OpenAI"
        · subst ho; rfl
        · simp [getModelProviderEnvConfig, ho, hg2, ha2]
  · rcases getModelProviderEnvConfig_cases modelProvider with h | h | h <;> rw [h] <;> decide
  · intro cfg network chainId rpcUrl
    refine ⟨"" :: cfg.env.topComments.map (fun comment => "# " ++ comment)
      ++ "\n# Required" :: cfg.env.required.map (fun line => line ++ "=")
      ++ "\n# Optional" :: ("NETWORK_ID=" ++ network.getD "")
      :: ((if truthy rpcUrl then ["RPC_URL=" ++ rpcUrl.getD ""] else [])
      ++ (if truthy chainId then ["CHAIN_ID=" ++ chainId.getD ""] else [])
      ++ cfg.env.optional.map (fun line => line ++ "=")), ?_⟩
    simp [nextEnvLines, List.append_assoc]

/-- Claim C7 witness: a Gemini selection yields the Gemini block and an
unrecognized provider string falls back to the OpenAI block. -/
theorem claim_C7_witness :
    getModelProviderEnvConfig (some "Gemini") = geminiEnvLines ∧
    getModelProviderEnvConfig (some "NotAProvider") = openAiEnvLines :=
  ⟨(claim_C7 (some "Gemini")).1 rfl,
   (claim_C7 (some "NotAProvider")).2.2.1 (Or.inr ⟨by decide, by decide⟩)⟩

/-- Claim C8 (counterexample): the claim asserts that with rpcUrl unset no
RPC_URL= line appears, but the EVM CDPEvmWallet route configuration lists
RPC_URL among its optional variable names, so its rendered Optional section
contains an RPC_URL= line even though rpcUrl was not supplied. -/
theorem claim_C8_counterexample :
    (AgentkitRouteConfigurations Family.EVM).lookup "CDPEvmWallet" =
      some evmCdpEvmWalletRoute ∧
    "RPC_URL=" ∈
      optionalSection (nextEnvLines evmCdpEvmWalletRoute (some "base-sepolia") none none none) := by
  exact ⟨rfl, by decide⟩

/-- Claim C8 (amended): with a network set, the Required section is exactly
one KEY= line per required name and the Optional section is the NETWORK_ID
line, the RPC_URL and CHAIN_ID lines exactly when those arguments are truthy,
then one KEY= line per optional name; hence with rpcUrl and chainId unset the
Optional section contains an RPC_URL= (resp. CHAIN_ID=) line iff RPC_URL
(resp. CHAIN_ID) is itself an optional variable name. The spec's concrete
instance (network base-sepolia, required CDP_API_KEY_ID only) holds as
stated. -/
theorem claim_C8 (cfg : AgentkitRouteConfiguration) (n : String) (mp : Option String) :
    requiredSection (nextEnvLines cfg (some n) none none mp) =
      cfg.env.required.map (fun l => l ++ "=") ∧
    optionalSection (nextEnvLines cfg (some n) none none mp) =
      ("NETWORK_ID=" ++ n) :: cfg.env.optional.map (fun l => l ++ "=") ∧
    ("RPC_URL=" ∈ optionalSection (nextEnvLines cfg (some n) none none mp) ↔
      "RPC_URL" ∈ cfg.env.optional) ∧
    ("CHAIN_ID=" ∈ optionalSection (nextEnvLines cfg (some n) none none mp) ↔
      "CHAIN_ID" ∈ cfg.env.optional) ∧
    (∀ rpcUrl chainId : Option String,
      optionalSection (nextEnvLines cfg (some n) chainId rpcUrl mp) =
        ("NETWORK_ID=" ++ n)
          :: ((if truthy rpcUrl then ["RPC_URL=" ++ rpcUrl.getD ""] else [])
          ++ (if truthy chainId then ["CHAIN_ID=" ++ chainId.getD ""] else [])
          ++ cfg.env.optional.map (fun l => l ++ "="))) ∧
    requiredSection (nextEnvLines cdpKeyOnlyRouteConfig (some "base-sepolia") none none none) =
      ["CDP_API_KEY_ID="] ∧
    optionalSection (nextEnvLines cdpKeyOnlyRouteConfig (some "base-sepolia") none none none) =
      ["NETWORK_ID=base-sepolia"] ∧
    "RPC_URL=" ∉ nextEnvLines cdpKeyOnlyRouteConfig (some "base-sepolia") none none none ∧
    "CHAIN_ID=" ∉ nextEnvLines cdpKeyOnlyRouteConfig (some "base-sepolia") none none none := by
  have h2 : optionalSection (nextEnvLines cfg (some n) none none mp) =
      ("NETWORK_ID=" ++ n) :: cfg.env.optional.map (fun l => l ++ "=") := by
    simpa [truthy] using optionalSection_nextEnvLines cfg n none none mp
  refine ⟨requiredSection_nextEnvLines cfg n none none mp, h2, ?_, ?_,
    fun rpcUrl chainId => optionalSection_nextEnvLines cfg n chainId rpcUrl mp,
    by decide, by decide, by decide, by decide⟩
  · have hk : ("RPC_URL=" : String) = "RPC_URL" ++ "=" := by decide
    rw [h2]
    constructor
    · intro h
      rcases List.mem_cons.mp h with he | hm
      · exact absurd he (rpc_line_ne_network_line n)
      · exact (mem_map_eq_line "RPC_URL" cfg.env.optional).mp (by rw [← hk]; exact hm)
    · intro h
      refine List.mem_cons.mpr (Or.inr ?_)
      rw [hk]
      exact (mem_map_eq_line "RPC_URL" cfg.env.optional).mpr h
  · have hk : ("CHAIN_ID=" : String) = "CHAIN_ID" ++ "=" := by decide
    rw [h2]
    constructor
    · intro h
      rcases List.mem_cons.mp h with he | hm
      · exact absurd he (chain_line_ne_network_line n)
      · exact (mem_map_eq_line "CHAIN_ID" cfg.env.optional).mp (by rw [← hk]; exact hm)
    · intro h
      refine List.mem_cons.mpr (Or.inr ?_)
      rw [hk]
      exact (mem_map_eq_line "CHAIN_ID" cfg.env.optional).mpr h

/-- Left cancellation for string append. -/
theorem string_append_left_cancel (a b c : String) (h : a ++ b = a ++ c) : b = c := by
  apply String.ext
  have hd := congrArg String.data h
  rw [String.data_append, String.data_append] at hd
  exact (List.append_inj hd rfl).2

/-- The two injected provider keys are always distinct. -/
theorem api_key_ne_model (P : String) : P ++ "_API_KEY" ≠ P ++ "_MODEL" := by
  intro h
  have h2 := string_append_left_cancel P "_API_KEY" "_MODEL" h
  exact absurd h2 (by decide)

/-- Lookup distributes over append, preferring the left list. -/
theorem lookup_append {α} (l₁ l₂ : List (String × α)) (k : String) :
    (l₁ ++ l₂).lookup k = ((l₁.lookup k).orElse (fun _ => l₂.lookup k)) := by
  induction l₁ with
  | nil => simp
  | cons p l ih =>
    obtain ⟨a, b⟩ := p
    rw [List.cons_append, List.lookup_cons, List.lookup_cons]
    cases hba : (k == a)
    · simpa using ih
    · simp

/-- Assigning an existing key in place yields that value on lookup. -/
theorem lookup_map_set {α} (env : List (String × α)) (k : String) (v : α)
    (h : (env.lookup k).isSome) :
    (env.map (fun p => if p.1 = k then (k, v) else p)).lookup k = some v := by
  induction env with
  | nil => simp at h
  | cons p l ih =>
    obtain ⟨a, b⟩ := p
    rw [List.lookup_cons] at h
    simp only [List.map_cons]
    by_cases hk : a = k
    · subst hk
      rw [if_pos rfl, List.lookup_cons]
      simp
    · have hbeq : (k == a) = false := by simp [Ne.symm hk]
      rw [if_neg hk, List.lookup_cons]
      simp only [hbeq] at h ⊢
      exact ih h

/-- Assigning one key leaves lookups of other keys unchanged (replace branch). -/
theorem lookup_map_set_ne {α} (env : List (String × α)) (k k2 : String) (v : α)
    (h : k2 ≠ k) :
    (env.map (fun p => if p.1 = k then (k, v) else p)).lookup k2 = env.lookup k2 := by
  induction env with
  | nil => rfl
  | cons p l ih =>
    obtain ⟨a, b⟩ := p
    simp only [List.map_cons]
    by_cases hk : a = k
    · subst hk
      have hbeq : (k2 == a) = false := by simp [h]
      rw [if_pos rfl, List.lookup_cons, List.lookup_cons]
      simp only [hbeq]
      exact ih
    · rw [if_neg hk, List.lookup_cons, List.lookup_cons]
      cases hba : (k2 == a)
      · exact ih
      · rfl

/-- JavaScript assignment: looking up the assigned key yields the new value. -/
theorem lookup_jsSet_self {α} (env : List (String × α)) (k : String) (v : α) :
    (jsSet env k v).lookup k = some v := by
  unfold jsSet
  by_cases h : (env.lookup k).isSome
  · rw [if_pos h]
    exact lookup_map_set env k v h
  · rw [if_neg h]
    have hn : env.lookup k = none := by
      cases he : env.lookup k
      · rfl
      · rw [he] at h
        simp at h
    rw [lookup_append, hn]
    simp [List.lookup_cons]

/-- JavaScript assignment: lookups of other keys are unchanged. -/
theorem lookup_jsSet_ne {α} (env : List (String × α)) (k k2 : String) (v : α)
    (h : k2 ≠ k) : (jsSet env k v).lookup k2 = env.lookup k2 := by
  unfold jsSet
  by_cases hs : (env.lookup k).isSome
  · rw [if_pos hs]
    exact lookup_map_set_ne env k k2 v h
  · rw [if_neg hs, lookup_append]
    have h1 : ([(k, v)] : List (String × α)).lookup k2 = none := by
      rw [List.lookup_cons]
      have hbeq : (k2 == k) = false := by simp [h]
      simp [hbeq]
    rw [h1]
    cases env.lookup k2 <;> rfl

/-- JavaScript assignment to a present key preserves the key list. -/
theorem keys_jsSet_present {α} (env : List (String × α)) (k : String) (v : α)
    (h : (env.lookup k).isSome) :
    (jsSet env k v).map Prod.fst = env.map Prod.fst := by
  unfold jsSet
  rw [if_pos h, List.map_map]
  apply List.map_congr_left
  intro p _
  by_cases hk : p.1 = k
  · simp [hk]
  · simp [hk]

/-- A truthy env entry is in particular present. -/
theorem isSome_of_envTruthy (env : List (String × Option String)) (k : String)
    (h : envTruthy env k = true) : (env.lookup k).isSome := by
  unfold envTruthy at h
  cases he : env.lookup k with
  | none => rw [he] at h; simp at h
  | some o => simp

/-- Claim C3: a null network family or a missing route-registry entry makes
either assembly driver return the exact selection error, with an empty
filesystem-operation trace, so the destination is untouched on a selection
error and no default route is ever substituted. -/
theorem claim_C3 (root framework walletProvider : String)
    (network chainId rpcUrl modelProvider : Option String) (template : McpConfigJson) :
    (getNetworkType network chainId = none →
      handleNextSelection root framework walletProvider network chainId rpcUrl modelProvider =
        ([], some "Unsupported network and chainId selected") ∧
      handleMcpSelection root walletProvider network chainId modelProvider template =
        ([], some "Unsupported network and chainId selected")) ∧
    (∀ fam, getNetworkType network chainId = some fam →
      ((AgentkitRouteConfigurations fam).lookup walletProvider = none →
        handleNextSelection root framework walletProvider network chainId rpcUrl modelProvider =
          ([], some "Selected invalid network & wallet provider combination")) ∧
      ((MCPRouteConfigurations fam).lookup walletProvider = none →
        handleMcpSelection root walletProvider network chainId modelProvider template =
          ([], some "Selected invalid network & wallet provider combination"))) := by
  constructor
  · intro h
    constructor
    · simp [handleNextSelection, h]
    · simp [handleMcpSelection, h]
  · intro fam hf
    constructor
    · intro hl
      simp [handleNextSelection, hf, hl]
    · intro hl
      simp [handleMcpSelection, hf, hl]

/-- Claim C3 witness: selecting the SVM-only SolanaKeypair provider on the
EVM network base-sepolia fails both drivers with the exact error and an
empty trace, and a fully unset selection fails with the unsupported error. -/
theorem claim_C3_witness :
    handleNextSelection "r" "Langchain" "SolanaKeypair" (some "base-sepolia") none none none =
      ([], some "Selected invalid network & wallet provider combination") ∧
    handleMcpSelection "r" "SolanaKeypair" (some "base-sepolia") none none ⟨"", []⟩ =
      ([], some "Selected invalid network & wallet provider combination") ∧
    handleNextSelection "r" "Langchain" "Viem" none none none none =
      ([], some "Unsupported network and chainId selected") :=
  ⟨((claim_C3 "r" "Langchain" "SolanaKeypair" (some "base-sepolia") none none none
      ⟨"", []⟩).2 Family.EVM rfl).1 (by decide),
   ((claim_C3 "r" "Langchain" "SolanaKeypair" (some "base-sepolia") none none none
      ⟨"", []⟩).2 Family.EVM rfl).2 (by decide),
   ((claim_C3 "r" "Langchain" "Viem" none none none none ⟨"", []⟩).1 rfl).1⟩

/-- Claim C4 (counterexample): the provider injection is not purely an
addition. A template whose env already holds OPENAI_API_KEY with a value
has that value replaced by the empty string when OpenAI is selected. -/
theorem claim_C4_counterexample :
    (([("OPENAI_API_KEY", some "existing")] :
        List (String × Option String)).lookup "OPENAI_API_KEY").isSome = true ∧
    (copyAndReplaceConfig ⟨"", [("OPENAI_API_KEY", some "existing")]⟩ "" (some "OpenAI")
        none none).env.lookup "OPENAI_API_KEY" = some (some "") := by
  exact ⟨by decide, by decide⟩

/-- Claim C4 (amended): with a truthy model provider the injection step
assigns `<PROVIDER>_API_KEY` to the empty string and `<PROVIDER>_MODEL` to
the provider's default model (empty for unknown providers), adding the keys
when absent and overwriting them when present; the value of every other key
is unchanged. -/
theorem claim_C4 (env : List (String × Option String)) (modelProvider : Option String)
    (h : truthy modelProvider = true) :
    (injectModelProvider env modelProvider).lookup
        (jsToUpper (modelProvider.getD "") ++ "_API_KEY") = some (some "") ∧
    (injectModelProvider env modelProvider).lookup
        (jsToUpper (modelProvider.getD "") ++ "_MODEL") =
      some (some ((DefaultModels.lookup (modelProvider.getD "")).getD "")) ∧
    (∀ k2, k2 ≠ jsToUpper (modelProvider.getD "") ++ "_API_KEY" →
      k2 ≠ jsToUpper (modelProvider.getD "") ++ "_MODEL" →
      (injectModelProvider env modelProvider).lookup k2 = env.lookup k2) := by
  unfold injectModelProvider
  simp only [h, if_true]
  refine ⟨?_, lookup_jsSet_self _ _ _, ?_⟩
  · rw [lookup_jsSet_ne _ _ _ _ (api_key_ne_model _)]
    exact lookup_jsSet_self _ _ _
  · intro k2 h1 h2
    rw [lookup_jsSet_ne _ _ _ _ h2, lookup_jsSet_ne _ _ _ _ h1]

/-- Claim C4 witness: the amended statement at a Gemini selection over an
env that already holds an unrelated key. -/
theorem claim_C4_witness :
    truthy (some "Gemini") = true ∧
    (injectModelProvider [("NETWORK_ID", some "base-sepolia")]
        (some "Gemini")).lookup "GEMINI_API_KEY" = some (some "") ∧
    (injectModelProvider [("NETWORK_ID", some "base-sepolia")]
        (some "Gemini")).lookup "NETWORK_ID" = some (some "base-sepolia") := by
  refine ⟨by decide, ?_, ?_⟩
  · exact (claim_C4 [("NETWORK_ID", some "base-sepolia")] (some "Gemini") (by decide)).1
  · exact (claim_C4 [("NETWORK_ID", some "base-sepolia")] (some "Gemini")
      (by decide)).2.2 "NETWORK_ID" (by decide) (by decide)

/-- Claim C5 (counterexample): the source guards the NETWORK_ID mutation by
JavaScript truthiness of the value, not by key existence. A template whose
env holds NETWORK_ID with the empty value keeps the empty value even though
the key exists and a network is given, contradicting the claimed iff. -/
theorem claim_C5_counterexample :
    (([("NETWORK_ID", some "")] :
        List (String × Option String)).lookup "NETWORK_ID").isSome = true ∧
    truthy (some "base-sepolia") = true ∧
    (copyAndReplaceConfig ⟨"", [("NETWORK_ID", some "")]⟩ "" none (some "base-sepolia")
        none).env.lookup "NETWORK_ID" = some (some "") := by
  exact ⟨by decide, by decide, by decide⟩

/-- Claim C5 (amended): with a truthy network, the network step assigns
NETWORK_ID to the raw network identifier iff the NETWORK_ID entry is truthy
(present with a non-empty value); otherwise the NETWORK_ID entry is left
exactly as it was, and in every case the step never adds or removes keys of
the env mapping. -/
theorem claim_C5 (env : List (String × Option String)) (network : Option String)
    (h : truthy network = true) :
    (envTruthy env "NETWORK_ID" = true →
      (applyNetworkStep env network).lookup "NETWORK_ID" =
        some (some (network.getD ""))) ∧
    (envTruthy env "NETWORK_ID" = false →
      (applyNetworkStep env network).lookup "NETWORK_ID" = env.lookup "NETWORK_ID") ∧
    (applyNetworkStep env network).map Prod.fst = env.map Prod.fst := by
  unfold applyNetworkStep
  simp only [h, if_true]
  cases hN : envTruthy env "NETWORK_ID" with
  | true =>
    simp only [if_true]
    refine ⟨fun _ => ?_, fun hfalse => by simp at hfalse, ?_⟩
    · cases hC : envTruthy (jsSet env "NETWORK_ID" (some (network.getD ""))) "CHAIN_ID" with
      | true =>
        simp only [if_true]
        rw [lookup_jsSet_ne _ _ _ _ (by decide)]
        exact lookup_jsSet_self _ _ _
      | false =>
        simp only [Bool.false_eq_true, if_false]
        exact lookup_jsSet_self _ _ _
    · cases hC : envTruthy (jsSet env "NETWORK_ID" (some (network.getD ""))) "CHAIN_ID" with
      | true =>
        simp only [if_true]
        rw [keys_jsSet_present _ _ _ (isSome_of_envTruthy _ _ hC)]
        exact keys_jsSet_present _ _ _ (isSome_of_envTruthy _ _ hN)
      | false =>
        simp only [Bool.false_eq_true, if_false]
        exact keys_jsSet_present _ _ _ (isSome_of_envTruthy _ _ hN)
  | false =>
    simp only [Bool.false_eq_true, if_false]
    refine ⟨fun htrue => by simp [hN] at htrue, fun _ => ?_, ?_⟩
    · cases hC : envTruthy env "CHAIN_ID" with
      | true =>
        simp only [if_true]
        exact lookup_jsSet_ne _ _ _ _ (by decide)
      | false =>
        simp only [Bool.false_eq_true, if_false]
    · cases hC : envTruthy env "CHAIN_ID" with
      | true =>
        simp only [if_true]
        exact keys_jsSet_present _ _ _ (isSome_of_envTruthy _ _ hC)
      | false =>
        simp only [Bool.false_eq_true, if_false]

/-- Claim C5 witness: the amended statement at a truthy NETWORK_ID entry and
at an env without the key. -/
theorem claim_C5_witness :
    truthy (some "base-sepolia") = true ∧
    (applyNetworkStep [("NETWORK_ID", some "ethereum-mainnet")]
        (some "base-sepolia")).lookup "NETWORK_ID" = some (some "base-sepolia") ∧
    (applyNetworkStep [("PRIVY_APP_ID", some "x")]
        (some "base-sepolia")).map Prod.fst = ["PRIVY_APP_ID"] := by
  refine ⟨by decide, ?_, ?_⟩
  · exact (claim_C5 [("NETWORK_ID", some "ethereum-mainnet")] (some "base-sepolia")
      (by decide)).1 (by decide)
  · have h := (claim_C5 [("PRIVY_APP_ID", some "x")] (some "base-sepolia") (by decide)).2.2
    simpa using h

/-- Claim C6: an explicitly given (truthy) chainId always ends up as the
CHAIN_ID value of the patched config, regardless of the template's env, of
the network argument and of the model provider: the chain-id step runs last
and assigns unconditionally. -/
theorem claim_C6 (cfg : McpConfigJson) (root : String)
    (modelProvider network chainId : Option String) (h : truthy chainId = true) :
    (copyAndReplaceConfig cfg root modelProvider network chainId).env.lookup "CHAIN_ID" =
      some (some (chainId.getD "")) := by
  unfold copyAndReplaceConfig applyChainIdStep
  simp only [h, if_true]
  exact lookup_jsSet_self _ _ _

/-- Claim C6 witness: an explicit chainId 2702 overrides the translation a
truthy network and a pre-existing CHAIN_ID entry would have produced. -/
theorem claim_C6_witness :
    truthy (some "2702") = true ∧
    (copyAndReplaceConfig ⟨"", [("CHAIN_ID", some "1"), ("NETWORK_ID", some "x")]⟩ ""
        (some "OpenAI") (some "base-sepolia") (some "2702")).env.lookup "CHAIN_ID" =
      some (some "2702") :=
  ⟨by decide,
   claim_C6 ⟨"", [("CHAIN_ID", some "1"), ("NETWORK_ID", some "x")]⟩ ""
     (some "OpenAI") (some "base-sepolia") (some "2702") (by decide)⟩

/-- If a pattern matches nowhere in the text, the first-match scan fails. -/
theorem replaceFirstAux_none (toks : List Tok) (repl : List Char) (s : List Char)
    (h : hasMatchIn toks s = false) : replaceFirstAux toks repl s = none := by
  induction s with
  | nil =>
    unfold hasMatchIn at h
    unfold replaceFirstAux
    cases he : matchToksAt toks [] with
    | none => rfl
    | some r => rw [he] at h; simp at h
  | cons c s ih =>
    unfold hasMatchIn at h
    obtain ⟨h1, h2⟩ := Bool.or_eq_false_iff.mp h
    unfold replaceFirstAux
    cases he : matchToksAt toks (c :: s) with
    | some r => rw [he] at h1; simp at h1
    | none => rw [ih h2]; rfl

/-- A substitution whose pattern has no match leaves the text unchanged. -/
theorem replaceFirst_of_no_match (toks : List Tok) (repl : String) (s : String)
    (h : hasMatchIn toks s.data = false) : replaceFirst toks repl s = s := by
  unfold replaceFirst
  rw [replaceFirstAux_none toks repl.data s.data h]

/-- Claim C9: the source rewriter is a total text transformation (its Lean
model returns a string for every input, mirroring the absence of any throw
in the source): when neither the LangChain nor the Vercel import signature
occurs in the text the output equals the input; any single substitution
whose pattern has no match leaves the text unchanged without signaling an
error; and in particular a LangChain-flagged text none of whose three
patterns match is returned unchanged. -/
theorem claim_C9 (content : String) (modelProvider : Option String) :
    (containsSubstr "@langchain/langgraph" content = false →
      containsSubstr "@ai-sdk/openai" content = false →
      updateCreateAgentWithModelProvider content modelProvider = content) ∧
    (∀ toks repl s, hasMatchIn toks s.data = false → replaceFirst toks repl s = s) ∧
    (containsSubstr "@langchain/langgraph" content = true →
      hasMatchIn langImportToks content.data = false →
      hasMatchIn guardToks content.data = false →
      hasMatchIn langCtorToks content.data = false →
      updateCreateAgentWithModelProvider content modelProvider = content) := by
  refine ⟨?_, fun toks repl s h => replaceFirst_of_no_match toks repl s h, ?_⟩
  · intro h1 h2
    simp [updateCreateAgentWithModelProvider, h1, h2]
  · intro h hm1 hm2 hm3
    simp only [updateCreateAgentWithModelProvider, h, if_true]
    rw [replaceFirst_of_no_match _ _ _ hm1, replaceFirst_of_no_match _ _ _ hm2,
        replaceFirst_of_no_match _ _ _ hm3]

/-- Claim C9 witness: a text with neither signature passes through both
branches of the statement unchanged. -/
theorem claim_C9_witness :
    updateCreateAgentWithModelProvider "const x = 1;" (some "Anthropic") = "const x = 1;" ∧
    replaceFirst langImportToks "Y" "const x = 1;" = "const x = 1;" :=
  ⟨(claim_C9 "const x = 1;" (some "Anthropic")).1 (by decide) (by decide),
   (claim_C9 "const x = 1;" (some "Anthropic")).2.1 langImportToks "Y" "const x = 1;"
     (by decide)⟩

/-- Claim C10: the static chain-id tables are mutually inverse. For every
entry of CHAIN_ID_TO_NETWORK_ID, looking the network id up in
NETWORK_ID_TO_CHAIN_ID returns the decimal string of the chain id; the
domain of NETWORK_ID_TO_CHAIN_ID is exactly the range of
CHAIN_ID_TO_NETWORK_ID; and the SVM networks have no entry, so the config
patcher's CHAIN_ID translation is undefined for them. -/
theorem claim_C10 :
    (∀ p ∈ CHAIN_ID_TO_NETWORK_ID,
      NETWORK_ID_TO_CHAIN_ID.lookup p.2 = some (toString p.1)) ∧
    (∀ q ∈ NETWORK_ID_TO_CHAIN_ID, q.1 ∈ CHAIN_ID_TO_NETWORK_ID.map Prod.snd) ∧
    (∀ nid ∈ CHAIN_ID_TO_NETWORK_ID.map Prod.snd,
      (NETWORK_ID_TO_CHAIN_ID.lookup nid).isSome = true) ∧
    (∀ s ∈ SVM_NETWORKS, NETWORK_ID_TO_CHAIN_ID.lookup s = none) := by
  refine ⟨?_, ?_, ?_, ?_⟩ <;> decide

/-- Claim C10 witness: the round trip at ethereum-mainnet and the absence of
an entry for solana-mainnet. -/
theorem claim_C10_witness :
    NETWORK_ID_TO_CHAIN_ID.lookup "ethereum-mainnet" = some "1" ∧
    NETWORK_ID_TO_CHAIN_ID.lookup "solana-mainnet" = none :=
  ⟨by
    have h := claim_C10.1 (1, "ethereum-mainnet") (by decide)
    simpa using h,
   claim_C10.2.2.2 "solana-mainnet" (by decide)⟩
